import Mathlib

/-!
Verification development for the x402 HTTP payment facilitator
(`http-bridge`): a shallow embedding of its settlement engine — payment
header normalization, signature decomposition, the chain and token
registry, the managed verifier, the EIP-3009 and relayer settlement
strategies, the finality confirmer, the fee engine and the idempotency
layer — together with theorems settling the specification's claims.

Machine integers (JavaScript `bigint` and `number` values) are modelled
as `Int`; blockchain interaction (`viem` public and wallet clients) is
modelled by environments that return `Except String` results, an
`Except.error` standing for an exception thrown by the RPC library;
submitted contract writes and receipt waits are recorded in an explicit
trace of `ChainCall`s.
-/

namespace ChaosX402

/-! ## JavaScript primitives -/

/-- JavaScript truthiness of an optional string field: an absent field
(`undefined`) and the empty string are falsy. -/
def truthyStr : Option String → Bool
  | none => false
  | some s => s ≠ ""

/-- JavaScript truthiness of an optional numeric field: an absent field and
zero are falsy. -/
def truthyNum : Option Nat → Bool
  | none => false
  | some n => n ≠ 0

/-- A JSON scalar as it may appear in the time fields of a payment header:
either a string or a number. -/
inductive JsTime
  | str (s : String)
  | num (n : Int)
deriving Repr, DecidableEq

/-- JavaScript truthiness of an optional time field. -/
def truthyTime : Option JsTime → Bool
  | none => false
  | some (JsTime.str s) => s ≠ ""
  | some (JsTime.num n) => n ≠ 0

/-- Decimal value of a character list when it is nonempty and all digits. -/
def digitsVal (cs : List Char) : Option Nat :=
  if cs = [] then none
  else if cs.all Char.isDigit then
    some (cs.foldl (fun acc c => acc * 10 + (c.toNat - Char.toNat '0')) 0)
  else none

/-- Model of JavaScript `BigInt(string)` on decimal strings: the empty string
is `0n`, a (possibly negated) digit string is its value, and anything else
throws a `SyntaxError`. -/
def jsBigInt (s : String) : Except String Int :=
  match s.data with
  | [] => Except.ok 0
  | '-' :: ds =>
    match digitsVal ds with
    | some n => Except.ok (-(n : Int))
    | none => Except.error ("Cannot convert " ++ s ++ " to a BigInt")
  | ds =>
    match digitsVal ds with
    | some n => Except.ok ((n : Int))
    | none => Except.error ("Cannot convert " ++ s ++ " to a BigInt")

/-- Model of JavaScript `parseInt` on decimal strings: parses an optional
sign and the leading run of digits; a result of `none` stands for `NaN`. -/
def jsParseInt (s : String) : Option Int :=
  match s.data with
  | '-' :: rest =>
    match digitsVal (rest.takeWhile Char.isDigit) with
    | some n => some (-(n : Int))
    | none => none
  | cs =>
    match digitsVal (cs.takeWhile Char.isDigit) with
    | some n => some ((n : Int))
    | none => none

/-- The verifier's coercion of a time field
(`typeof x === 'string' ? parseInt(x) : x`). -/
def timeNumber : JsTime → Option Int
  | JsTime.str s => jsParseInt s
  | JsTime.num n => some n

/-- `BigInt` coercion of a time field (strings via `BigInt` parsing,
numbers used as-is). -/
def bigIntTime : JsTime → Except String Int
  | JsTime.str s => jsBigInt s
  | JsTime.num n => Except.ok n

/-- Rendering of an optional number, `none` printing as JavaScript `NaN`. -/
def numShow : Option Int → String
  | some v => toString v
  | none => "NaN"

/-- JavaScript `now < x` where `x` may be `NaN` (every comparison with `NaN`
is false). -/
def nanLt (now : Int) : Option Int → Bool
  | some x => now < x
  | none => false

/-- JavaScript `now > x` where `x` may be `NaN`. -/
def nanGt (now : Int) : Option Int → Bool
  | some x => x < now
  | none => false

/-- Value of a hexadecimal digit, upper or lower case. -/
def hexDigitVal (c : Char) : Option Nat :=
  if '0' ≤ c ∧ c ≤ '9' then some (c.toNat - Char.toNat '0')
  else if 'a' ≤ c ∧ c ≤ 'f' then some (c.toNat - Char.toNat 'a' + 10)
  else if 'A' ≤ c ∧ c ≤ 'F' then some (c.toNat - Char.toNat 'A' + 10)
  else none

/-- Whether a character is a hexadecimal digit. -/
def isHexChar (c : Char) : Bool := (hexDigitVal c).isSome

/-- Model of JavaScript `parseInt(s, 16)`: value of the leading run of hex
digits; `none` stands for `NaN`. -/
def jsParseIntHex (cs : List Char) : Option Nat :=
  let ds := cs.takeWhile isHexChar
  if ds = [] then none
  else some (ds.foldl (fun acc c => acc * 16 + (hexDigitVal c).getD 0) 0)

/-- Lower-case hexadecimal digit character for a value below 16. -/
def hexChar (n : Nat) : Char :=
  if n < 10 then Char.ofNat (Char.toNat '0' + n) else Char.ofNat (Char.toNat 'a' + n - 10)

/-- Two-digit lower-case hexadecimal rendering of a byte. -/
def byteToHex (n : Nat) : String := String.mk [hexChar (n / 16), hexChar (n % 16)]

/-- JavaScript `String.prototype.slice(a, b)` at the character level. -/
def jsSliceChars (cs : List Char) (a b : Nat) : List Char := (cs.drop a).take (b - a)

/-- Strip a leading `0x` from a character list (the `startsWith('0x')`
test of the source). -/
def strip0xChars : List Char → List Char
  | c0 :: c1 :: rest => if c0 = '0' ∧ c1 = 'x' then rest else c0 :: c1 :: rest
  | l => l

/-- Strip a leading `0x` from a string. -/
def strip0xStr (s : String) : String := String.mk (strip0xChars s.data)

/-- Prepend `0x` when the string does not already start with it (the
nonce canonicalization of the source). -/
def prepend0x (s : String) : String :=
  match s.data with
  | '0' :: 'x' :: _ => s
  | _ => String.mk ('0' :: 'x' :: s.data)

/-- Use of an optional address field where the source casts it
(`auth.from as Address`); an absent field flows through as an opaque
default. -/
def asAddr (a : Option String) : String := a.getD ("")

/-- Decimal rendering of a non-negative base-unit amount divided by
`10 ^ decimals`, with the trailing zeros of the fraction trimmed
(viem's `formatUnits`). -/
def formatUnitsNat (value : Nat) (decimals : Nat) : String :=
  let ds := (toString value).data
  let padded := List.replicate (decimals - ds.length) '0' ++ ds
  let intPart := padded.take (padded.length - decimals)
  let fracPart := ((padded.drop (padded.length - decimals)).reverse.dropWhile (· = '0')).reverse
  (if intPart = [] then "0" else String.mk intPart) ++
    (if fracPart = [] then "" else "." ++ String.mk fracPart)

/-- `formatUnits` on a possibly negative amount. -/
def formatUnits (value : Int) (decimals : Nat) : String :=
  (if value < 0 then "-" else "") ++ formatUnitsNat value.natAbs decimals

/-! ## Payment header normalization (`parsePaymentHeader`) -/

/-- The nested `payload.authorization` object of the ChaosChain SDK header
shape. -/
structure NestedAuth where
  fromAddr : Option String
  toAddr : Option String
  value : Option String
  validAfter : Option JsTime
  validBefore : Option JsTime
  nonce : Option String
deriving Repr, DecidableEq

/-- A parsed (JSON) payment-header object, with every field optional as in
the untyped source; `payloadAuthorization` is `parsed.payload?.authorization`. -/
structure ParsedHeader where
  payloadAuthorization : Option NestedAuth
  fromAddr : Option String
  sender : Option String
  toAddr : Option String
  value : Option String
  validAfter : Option JsTime
  validBefore : Option JsTime
  nonce : Option String
  signature : Option String
  v : Option Nat
  r : Option String
  s : Option String
deriving Repr, DecidableEq

/-- The canonical authorization record produced by the normalizer. -/
structure PaymentAuth where
  fromAddr : Option String
  toAddr : Option String
  value : Option String
  validAfter : Option JsTime
  validBefore : Option JsTime
  nonce : Option String
  signature : Option String
  v : Option Nat
  r : Option String
  s : Option String
deriving Repr, DecidableEq

/-- The payment-header normalizer: ChaosChain SDK shape
(`payload.authorization`), then flat EIP-3009 shape (`from && nonce`),
then simple shape (`sender && nonce`, renaming `sender` to `from`),
otherwise an invalid-header error. -/
def parsePaymentHeader (parsed : ParsedHeader) : Except String PaymentAuth :=
  match parsed.payloadAuthorization with
  | some a =>
    Except.ok
      { fromAddr := a.fromAddr, toAddr := a.toAddr, value := a.value,
        validAfter := a.validAfter, validBefore := a.validBefore, nonce := a.nonce,
        signature := parsed.signature, v := parsed.v, r := parsed.r, s := parsed.s }
  | none =>
    if truthyStr parsed.fromAddr && truthyStr parsed.nonce then
      Except.ok
        { fromAddr := parsed.fromAddr, toAddr := parsed.toAddr, value := parsed.value,
          validAfter := parsed.validAfter, validBefore := parsed.validBefore,
          nonce := parsed.nonce, signature := parsed.signature,
          v := parsed.v, r := parsed.r, s := parsed.s }
    else if truthyStr parsed.sender && truthyStr parsed.nonce then
      Except.ok
        { fromAddr := parsed.sender, toAddr := parsed.toAddr, value := parsed.value,
          validAfter := parsed.validAfter, validBefore := parsed.validBefore,
          nonce := parsed.nonce, signature := parsed.signature,
          v := parsed.v, r := parsed.r, s := parsed.s }
    else Except.error ("Invalid payment header format")

/-- The `paymentHeader` field of a request: either an object, or a base64
string whose decode-and-JSON-parse yields an object or throws with the
given message. -/
inductive HeaderInput
  | obj (h : ParsedHeader)
  | strOf (h : ParsedHeader)
  | malformed (msg : String)
deriving Repr, DecidableEq

/-- Normalize a header input: strings are base64-decoded and JSON-parsed
first (a failure there propagates as the exception message), then the
object is normalized. -/
def parsePaymentHeaderInput : HeaderInput → Except String PaymentAuth
  | HeaderInput.obj h => parsePaymentHeader h
  | HeaderInput.strOf h => parsePaymentHeader h
  | HeaderInput.malformed m => Except.error m

/-! ## Signature decomposition (`splitSignature`) -/

/-- The result of signature decomposition; `v = none` stands for `NaN`
from `parseInt`. -/
structure SplitSig where
  v : Option Nat
  r : String
  s : String
deriving Repr, DecidableEq

/-- The argument of `splitSignature`: a combined-signature string or an
object carrying optional `v,r,s` (and possibly a `signature` field). -/
inductive SigInput
  | str (s : String)
  | obj (v : Option Nat) (r s sigField : Option String)
deriving Repr, DecidableEq

/-- Decompose a combined signature string: strip an optional `0x`, then
`r` is characters 0–64, `s` is 64–128 and `v` is `parseInt` of 128–130;
a missing or empty signature throws. -/
def splitCombined (signature : Option String) : Except String SplitSig :=
  match signature with
  | none => Except.error ("Missing signature")
  | some sg =>
    if sg = "" then Except.error ("Missing signature")
    else
      let cs := strip0xChars sg.data
      Except.ok
        { v := jsParseIntHex (jsSliceChars cs 128 130),
          r := "0x" ++ String.mk (jsSliceChars cs 0 64),
          s := "0x" ++ String.mk (jsSliceChars cs 64 128) }

/-- Split a signature into `v,r,s`: components already present and truthy
are returned as-is, otherwise the combined signature string is decomposed. -/
def splitSignature (sig : SigInput) : Except String SplitSig :=
  match sig with
  | SigInput.obj v r s sigField =>
    if truthyNum v && truthyStr r && truthyStr s then
      Except.ok { v := v, r := r.getD (""), s := s.getD ("") }
    else splitCombined sigField
  | SigInput.str s => splitCombined (some s)

/-- Modelled from the spec (round-trip claim): combination of signature
components into the combined 65-byte hex string, `r` bytes then `s` bytes
then the `v` byte, `0x`-prefixed. -/
def combineSignature (v : Nat) (r s : String) : String :=
  "0x" ++ strip0xStr r ++ strip0xStr s ++ byteToHex v

/-! ## Chain and token registry (`CHAIN_CONFIG`, `TOKEN_ADDRESSES`, `TOKEN_INFO`) -/

/-- Required confirmations per supported network (`CHAIN_CONFIG`);
`none` means the network is not configured. -/
def chainConfirmations : String → Option Nat
  | "base-sepolia" => some 2
  | "ethereum-sepolia" => some 3
  | "base-mainnet" => some 2
  | "ethereum-mainnet" => some 3
  | "0g-mainnet" => some 5
  | "skale-base-sepolia" => some 1
  | _ => none

/-- Token contract address per network (`TOKEN_ADDRESSES`). -/
def tokenAddress : String → Option String
  | "base-sepolia" => some ("0x036CbD53842c5426634e7929541eC2318f3dCF7e")
  | "ethereum-sepolia" => some ("0x1c7D4B196Cb0C7B01d743Fbc6116a902379C7238")
  | "base-mainnet" => some ("0x833589fCD6eDb6E08f4c7C32D4f71b54bdA02913")
  | "ethereum-mainnet" => some ("0xA0b86991c6218b36c1d19D4a2e9Eb0cE3606eB48")
  | "skale-base-sepolia" => some ("0x2e08028E3C4c2356572E096d8EF835cD5C6030bD")
  | "0g-mainnet" => some ("0x1Cd0690fF9a693f5EF2dD976660a8dAFc81A109c")
  | _ => none

/-- Token metadata. -/
structure TokenInfo where
  symbol : String
  decimals : Nat
  supportsEIP3009 : Bool
deriving Repr, DecidableEq

/-- Token metadata per network (`TOKEN_INFO`). -/
def tokenInfo : String → Option TokenInfo
  | "base-sepolia" => some { symbol := "USDC", decimals := 6, supportsEIP3009 := true }
  | "ethereum-sepolia" => some { symbol := "USDC", decimals := 6, supportsEIP3009 := true }
  | "base-mainnet" => some { symbol := "USDC", decimals := 6, supportsEIP3009 := true }
  | "ethereum-mainnet" => some { symbol := "USDC", decimals := 6, supportsEIP3009 := true }
  | "skale-base-sepolia" => some { symbol := "USDC", decimals := 6, supportsEIP3009 := true }
  | "0g-mainnet" => some { symbol := "W0G", decimals := 18, supportsEIP3009 := false }
  | _ => none

/-! ## Requests -/

/-- The merchant-stated payment requirements. -/
structure PaymentRequirements where
  scheme : String
  network : String
  asset : String
  payTo : String
  maxAmountRequired : String
deriving Repr, DecidableEq

/-- A `/verify` or `/settle` request body. -/
structure PaymentRequest where
  x402Version : Nat
  paymentHeader : HeaderInput
  paymentRequirements : PaymentRequirements
deriving Repr, DecidableEq

/-! ## Verifier (`verifyPaymentManaged`) -/

/-- The verifier's result record. -/
structure VerifyResult where
  isValid : Bool
  invalidReason : Option String
  decimals : Option Nat
deriving Repr, DecidableEq

/-- The chain reads the verifier performs, each able to throw
(`Except.error` is a thrown RPC exception, carrying its message). -/
structure VerifyEnv where
  decimalsRead : Except String Nat
  balanceRead : String → Except String Int
  authStateRead : String → String → Except String Bool
  allowanceRead : String → String → Except String Int
  facilitatorAccount : Except String String

/-- The body of the verifier's `try` block: header normalization, token
lookup, decimals read, amount parse, time-window checks, balance check,
then the nonce-used check (EIP-3009) or the allowance check (relayer). -/
def verifyBody (req : PaymentRequest) (now : Int) (env : VerifyEnv) :
    Except String VerifyResult := do
  let auth ← parsePaymentHeaderInput req.paymentHeader
  let payerAddress := asAddr auth.fromAddr
  let network := req.paymentRequirements.network
  match tokenAddress network, tokenInfo network with
  | none, _ =>
    pure { isValid := false,
           invalidReason := some ("Token not available on " ++ network), decimals := none }
  | some _, none =>
    pure { isValid := false,
           invalidReason := some ("Token not available on " ++ network), decimals := none }
  | some _tokenAddr, some info => do
    let decimals ← env.decimalsRead
    let amount ← jsBigInt req.paymentRequirements.maxAmountRequired
    if truthyTime auth.validAfter &&
        nanLt now (timeNumber (auth.validAfter.getD (JsTime.num 0))) then
      pure { isValid := false,
             invalidReason := some ("Authorization not yet valid (validAfter: " ++
               numShow (timeNumber (auth.validAfter.getD (JsTime.num 0))) ++
               ", now: " ++ toString now ++ ")"),
             decimals := some decimals }
    else if truthyTime auth.validBefore &&
        nanGt now (timeNumber (auth.validBefore.getD (JsTime.num 0))) then
      pure { isValid := false,
             invalidReason := some ("Authorization expired (validBefore: " ++
               numShow (timeNumber (auth.validBefore.getD (JsTime.num 0))) ++
               ", now: " ++ toString now ++ ")"),
             decimals := some decimals }
    else do
      let balance ← env.balanceRead payerAddress
      if balance < amount then
        pure { isValid := false,
               invalidReason := some ("Insufficient " ++ info.symbol ++
                 " balance. Required: " ++ formatUnits amount decimals ++ " " ++ info.symbol ++
                 ", Available: " ++ formatUnits balance decimals ++ " " ++ info.symbol),
               decimals := some decimals }
      else if info.supportsEIP3009 then
        match auth.nonce with
        | none => throw ("Cannot read properties of undefined (reading 'startsWith')")
        | some nz => do
          let authUsed ← env.authStateRead payerAddress (prepend0x nz)
          if authUsed then
            pure { isValid := false,
                   invalidReason := some ("Authorization already used (nonce: " ++ nz ++ ")"),
                   decimals := some decimals }
          else
            pure { isValid := true, invalidReason := none, decimals := some decimals }
      else do
        let facilitatorAddress ← env.facilitatorAccount
        let allowance ← env.allowanceRead payerAddress facilitatorAddress
        if allowance < amount then
          pure { isValid := false,
                 invalidReason := some ("Insufficient allowance. User must approve facilitator (" ++
                   facilitatorAddress ++ ") for " ++ formatUnits amount decimals ++ " " ++
                   info.symbol ++ ". Current allowance: " ++ formatUnits allowance decimals ++
                   " " ++ info.symbol),
                 decimals := some decimals }
        else
          pure { isValid := true, invalidReason := none, decimals := some decimals }

/-- The verifier: an unsupported network is reported up front; otherwise
the body runs and any exception it throws is caught and converted into
`{ isValid := false, invalidReason := message }`. The function is total:
it always returns a record and never propagates an exception. -/
def verifyPaymentManaged (req : PaymentRequest) (now : Int) (env : VerifyEnv) : VerifyResult :=
  match chainConfirmations req.paymentRequirements.network with
  | none =>
    { isValid := false,
      invalidReason := some ("Unsupported network: " ++ req.paymentRequirements.network),
      decimals := none }
  | some _ =>
    match verifyBody req now env with
    | Except.ok r => r
    | Except.error m => { isValid := false, invalidReason := some m, decimals := none }

/-! ## Settlement strategies -/

/-- Settlement status values. -/
inductive SettleStatus
  | pending
  | confirmed
  | partialSettlement
  | failed
deriving Repr, DecidableEq

/-- The settlement result record. -/
structure SettleResult where
  txHash : String
  txHashFee : Option String
  status : SettleStatus
  confirmations : Nat
deriving Repr, DecidableEq

/-- Arguments of an EIP-3009 `transferWithAuthorization` contract write. -/
structure TwaArgs where
  fromAddr : String
  toAddr : String
  value : Int
  validAfter : Int
  validBefore : Int
  nonce : String
  v : Option Nat
  r : String
  s : String
deriving Repr, DecidableEq

/-- A chain interaction submitted by a settlement strategy. -/
inductive ChainCall
  | transferWithAuthorization (token : String) (args : TwaArgs)
  | transferFrom (token : String) (fromAddr toAddr : String) (amount : Int)
  | waitReceipt (hash : String) (confirmations : Nat)
deriving Repr, DecidableEq

/-- A transaction receipt as the strategies and the confirmer consume it:
its block number and whether `status === 'success'`. -/
structure Receipt where
  blockNumber : Int
  success : Bool
deriving Repr, DecidableEq

/-- Responses of the chain to writes and receipt waits; `Except.error`
is a thrown RPC exception. -/
structure ChainEnv where
  writeResult : ChainCall → Except String String
  receiptResult : String → Except String Receipt

/-- Extract the signature components in the EIP-3009 strategy: split form
first when all of `v,r,s` are truthy, else decompose
`auth.signature || auth`. -/
def extractVRS (auth : PaymentAuth) : Except String SplitSig :=
  if truthyNum auth.v && truthyStr auth.r && truthyStr auth.s then
    Except.ok { v := auth.v, r := auth.r.getD (""), s := auth.s.getD ("") }
  else
    splitSignature (if truthyStr auth.signature then SigInput.str (auth.signature.getD (""))
                    else SigInput.obj auth.v auth.r auth.s auth.signature)

/-- `validAfter` parameter: `auth.validAfter ? BigInt(auth.validAfter) : 0n`. -/
def eipValidAfter (auth : PaymentAuth) : Except String Int :=
  if truthyTime auth.validAfter then bigIntTime (auth.validAfter.getD (JsTime.num 0))
  else Except.ok 0

/-- `validBefore` parameter, defaulting to one hour from now. -/
def eipValidBefore (auth : PaymentAuth) (now : Int) : Except String Int :=
  if truthyTime auth.validBefore then bigIntTime (auth.validBefore.getD (JsTime.num 0))
  else Except.ok (now + 3600)

/-- Nonce canonicalization in the settlement path; an absent nonce throws
the JavaScript `TypeError` of calling `startsWith` on `undefined`. -/
def eipNonce (auth : PaymentAuth) : Except String String :=
  match auth.nonce with
  | none => Except.error ("Cannot read properties of undefined (reading 'startsWith')")
  | some nz => Except.ok (prepend0x nz)

/-- The signed amount: `BigInt(auth.value)`, exactly the authorization's
`value` field. -/
def eipSignedAmount (auth : PaymentAuth) : Except String Int :=
  match auth.value with
  | none => Except.error ("Cannot convert undefined to a BigInt")
  | some vs => jsBigInt vs

/-- The EIP-3009 strategy's catch-all rethrow wrapper. -/
def eipFail (m : String) : Except String SettleResult :=
  Except.error ("EIP-3009 settlement failed: " ++ m)

/-- The EIP-3009 settlement strategy: normalize the header, look up the
token, extract the signature, prepare the parameters, submit one
`transferWithAuthorization` for the exact signed amount, wait for its
receipt, and classify `success → confirmed`, else `failed`; the fee
transaction hash is left undefined (fees are tracked off-chain). The
second component is the trace of chain calls submitted. -/
def settleWithEIP3009 (req : PaymentRequest) (now : Int) (feeAmount netAmount : Int)
    (confs : Nat) (env : ChainEnv) : Except String SettleResult × List ChainCall :=
  match parsePaymentHeaderInput req.paymentHeader with
  | Except.error m => (eipFail m, [])
  | Except.ok auth =>
    match tokenAddress req.paymentRequirements.network with
    | none => (eipFail ("Token not configured for " ++ req.paymentRequirements.network), [])
    | some token =>
      match extractVRS auth with
      | Except.error m => (eipFail m, [])
      | Except.ok sigParts =>
        match eipValidAfter auth with
        | Except.error m => (eipFail m, [])
        | Except.ok validAfter =>
          match eipValidBefore auth now with
          | Except.error m => (eipFail m, [])
          | Except.ok validBefore =>
            match eipNonce auth with
            | Except.error m => (eipFail m, [])
            | Except.ok nonceBytes32 =>
              match eipSignedAmount auth with
              | Except.error m => (eipFail m, [])
              | Except.ok signedAmount =>
                let args : TwaArgs :=
                  { fromAddr := asAddr auth.fromAddr,
                    toAddr := req.paymentRequirements.payTo,
                    value := signedAmount,
                    validAfter := validAfter, validBefore := validBefore,
                    nonce := nonceBytes32,
                    v := sigParts.v, r := sigParts.r, s := sigParts.s }
                let callMerchant := ChainCall.transferWithAuthorization token args
                match env.writeResult callMerchant with
                | Except.error m => (eipFail m, [callMerchant])
                | Except.ok hashMerchant =>
                  match env.receiptResult hashMerchant with
                  | Except.error m =>
                    (eipFail m, [callMerchant, ChainCall.waitReceipt hashMerchant confs])
                  | Except.ok receipt =>
                    (Except.ok
                      { txHash := hashMerchant, txHashFee := none,
                        status := if receipt.success then SettleStatus.confirmed
                                  else SettleStatus.failed,
                        confirmations := confs },
                     [callMerchant, ChainCall.waitReceipt hashMerchant confs])

/-- The relayer strategy's catch-all rethrow wrapper. -/
def relayerFail (m : String) : Except String SettleResult :=
  Except.error ("Relayer settlement failed: " ++ m)

/-- The relayer settlement strategy: normalize the header, look up the
token, submit `transferFrom(payer, merchant, netAmount)` and then
`transferFrom(payer, treasury, feeAmount)`, wait for both receipts, and
classify: both success → `confirmed`, otherwise `partialSettlement`, in
both cases reporting both transaction hashes. Any exception is caught
and rethrown as a `Relayer settlement failed` error carrying only the
message. The second component is the trace of chain calls submitted. -/
def settleWithRelayer (req : PaymentRequest) (feeAmount netAmount : Int)
    (confs : Nat) (treasuryAddress : String) (env : ChainEnv) :
    Except String SettleResult × List ChainCall :=
  match parsePaymentHeaderInput req.paymentHeader with
  | Except.error m => (relayerFail m, [])
  | Except.ok auth =>
    match tokenAddress req.paymentRequirements.network with
    | none => (relayerFail ("Token not configured for " ++ req.paymentRequirements.network), [])
    | some token =>
      let payerAddress := asAddr auth.fromAddr
      let merchantAddress := req.paymentRequirements.payTo
      let callMerchant := ChainCall.transferFrom token payerAddress merchantAddress netAmount
      match env.writeResult callMerchant with
      | Except.error m => (relayerFail m, [callMerchant])
      | Except.ok hashMerchant =>
        let callFee := ChainCall.transferFrom token payerAddress treasuryAddress feeAmount
        match env.writeResult callFee with
        | Except.error m => (relayerFail m, [callMerchant, callFee])
        | Except.ok hashFee =>
          let trace := [callMerchant, callFee,
                        ChainCall.waitReceipt hashMerchant confs,
                        ChainCall.waitReceipt hashFee confs]
          match env.receiptResult hashMerchant, env.receiptResult hashFee with
          | Except.error m, _ => (relayerFail m, trace)
          | Except.ok _, Except.error m => (relayerFail m, trace)
          | Except.ok receiptMerchant, Except.ok receiptFee =>
            if !receiptMerchant.success || !receiptFee.success then
              (Except.ok { txHash := hashMerchant, txHashFee := some hashFee,
                           status := SettleStatus.partialSettlement, confirmations := confs },
               trace)
            else
              (Except.ok { txHash := hashMerchant, txHashFee := some hashFee,
                           status := SettleStatus.confirmed, confirmations := confs },
               trace)

/-! ## Fee engine -/

/-- Modelled from the spec: the Fee Engine (`computeFeeBreakdown` in
`src/managed/amounts.ts` and `calculateFee` in `src/managed/fees.ts`) is
not among the provided source files, only its call sites are; §4.3 of the
spec defines it as `fee = amount * feeBps / 10000` with floor division,
`net = amount - fee`, and `feeBps` a process-wide constant defaulting to
100 (1%). -/
def feeBps : Nat := 100

/-- One amount of a fee breakdown: human-readable string, base units and
symbol. -/
structure MoneyView where
  human : String
  base : Nat
  symbol : String
deriving Repr, DecidableEq

/-- A fee breakdown: gross amount, fee and net, each in human and base
units. -/
structure FeeBreakdown where
  amount : MoneyView
  fee : MoneyView
  net : MoneyView
deriving Repr, DecidableEq

/-- Modelled from the spec: `computeFeeBreakdown` over a non-negative
base-unit amount, at the process-wide rate `feeBps`. -/
def computeFeeBreakdown (amount : Nat) (decimals : Nat) (symbol : String) : FeeBreakdown :=
  let fee := amount * feeBps / 10000
  let net := amount - fee
  { amount := { human := formatUnitsNat amount decimals, base := amount, symbol := symbol },
    fee := { human := formatUnitsNat fee decimals, base := fee, symbol := symbol },
    net := { human := formatUnitsNat net decimals, base := net, symbol := symbol } }

/-! ## Managed `/settle` response assembly -/

/-- The fields of the managed-mode `/settle` response this development
reasons about. -/
structure SettleResponseView where
  success : Bool
  error : Option String
  txHash : Option String
  txHashFee : Option String
  networkId : String
  timestamp : Int
  status : Option SettleStatus
deriving Repr, DecidableEq

/-- Assembly of the managed-mode `/settle` response after a settlement
attempt: `success` is `status === 'confirmed' || status === 'pending'`. -/
def assembleSettleResponse (settlement : SettleResult) (network : String)
    (stableTimestamp : Int) : SettleResponseView :=
  { success := settlement.status == SettleStatus.confirmed ||
               settlement.status == SettleStatus.pending,
    error := none,
    txHash := some settlement.txHash,
    txHashFee := settlement.txHashFee,
    networkId := network,
    timestamp := stableTimestamp,
    status := some settlement.status }

/-! ## Finality confirmer -/

/-- Result of `checkTransactionFinality`. -/
structure FinalityResult where
  confirmed : Bool
  confirmations : Int
  success : Bool
deriving Repr, DecidableEq

/-- Finality check for one transaction: confirmations are the current
block number minus the receipt's block number, and the transaction is
final when they reach the required count. -/
def checkTransactionFinality (receipt : Receipt) (currentBlock : Int)
    (requiredConfirmations : Nat) : FinalityResult :=
  let confirmations := currentBlock - receipt.blockNumber
  { confirmed := decide ((requiredConfirmations : Int) ≤ confirmations),
    confirmations := confirmations,
    success := receipt.success }

/-- The update the confirmer persists for one non-terminal record:
either a finalization (new status, confirmations and `confirmed_at`),
or only the new confirmations count (status untouched). -/
inductive TxUpdate
  | finalize (status : SettleStatus) (confirmations : Int) (confirmedAt : String)
  | confirmationsOnly (confirmations : Int)
deriving Repr, DecidableEq

/-- The confirmer's decision for one record, from a finality result. -/
def confirmerUpdate (result : FinalityResult) (nowIso : String) : TxUpdate :=
  if result.confirmed then
    TxUpdate.finalize (if result.success then SettleStatus.confirmed else SettleStatus.failed)
      result.confirmations nowIso
  else
    TxUpdate.confirmationsOnly result.confirmations

/-- Processing of one non-terminal record in a confirmer sweep. -/
def processPendingTransaction (receipt : Receipt) (currentBlock : Int)
    (required : Nat) (nowIso : String) : TxUpdate :=
  confirmerUpdate (checkTransactionFinality receipt currentBlock required) nowIso

/-! ## Idempotency layer -/

/-- Modelled from the spec: the idempotency middleware
(`src/middleware/idempotency.ts`, `tryServeCachedResponse` and
`storeResponseForIdempotency`) is not among the provided source files,
only its call sites in `server.ts` are. Per §4.7 an entry maps a request
fingerprint to the stored response body and its creation time, bounded
by a TTL. -/
structure CacheEntry where
  body : String
  createdAt : Int
deriving Repr, DecidableEq

/-- Look up a fingerprint in the idempotency cache; a hit within the TTL
returns the stored response body. -/
def cacheLookup (cache : List (String × CacheEntry)) (fp : String)
    (now ttl : Int) : Option String :=
  match cache.find? (fun e => e.1 == fp) with
  | some e => if now - e.2.createdAt ≤ ttl then some e.2.body else none
  | none => none

/-- Outcome of handling one `/verify` or `/settle` request through the
idempotency layer: the emitted body, whether downstream processing ran,
and the cache afterwards. -/
structure RequestOutcome where
  body : String
  processedDownstream : Bool
  cache : List (String × CacheEntry)
deriving Repr, DecidableEq

/-- Modelled from the spec: handling of a request under the idempotency
layer. A cached entry within TTL is served verbatim and downstream
processing is suppressed; otherwise a stable timestamp is chosen once,
the response body is produced from it, and it is stored under the
fingerprint before the reply is emitted. -/
def handleWithIdempotency (cache : List (String × CacheEntry)) (fp : String)
    (now ttl : Int) (process : Int → String) : RequestOutcome :=
  match cacheLookup cache fp now ttl with
  | some cached => { body := cached, processedDownstream := false, cache := cache }
  | none =>
    let stableTimestamp := now
    let responseBody := process stableTimestamp
    { body := responseBody, processedDownstream := true,
      cache := (fp, { body := responseBody, createdAt := now }) :: cache }

/-! ## Concrete instances -/

/-- A parsed header object with every field absent. -/
def emptyHeader : ParsedHeader :=
  { payloadAuthorization := none, fromAddr := none, sender := none, toAddr := none,
    value := none, validAfter := none, validBefore := none, nonce := none,
    signature := none, v := none, r := none, s := none }

/-- Concrete payment requirements on `base-sepolia`. -/
def demoRequirements : PaymentRequirements :=
  { scheme := "exact", network := "base-sepolia", asset := "USDC",
    payTo := "0xMERCHANT", maxAmountRequired := "1000000" }

/-- A concrete nested `payload.authorization` object. -/
def demoNested : NestedAuth :=
  { fromAddr := some ("0xA"), toAddr := some ("0xB"), value := some ("7"),
    validAfter := none, validBefore := none, nonce := some ("0xN") }

/-- A concrete header in the ChaosChain SDK (nested) shape. -/
def demoNestedHeader : ParsedHeader :=
  { emptyHeader with payloadAuthorization := some demoNested }

/-- A concrete header in the simple (`sender`) shape. -/
def demoSimpleHeader : ParsedHeader :=
  { emptyHeader with sender := some ("0xS"), nonce := some ("0xN") }

/-- A concrete flat EIP-3009 header with split signature components. -/
def demoFlatHeader : ParsedHeader :=
  { emptyHeader with
    fromAddr := some ("0xPAYER"), toAddr := some ("0xMERCHANT"),
    value := some ("1000000"), nonce := some ("0xNONCE"),
    v := some 27, r := some ("0xr"), s := some ("0xs") }

/-- A concrete settlement request over the flat header. -/
def demoEipReq : PaymentRequest :=
  { x402Version := 1, paymentHeader := HeaderInput.obj demoFlatHeader,
    paymentRequirements := demoRequirements }

/-- A concrete relayer-path request (`0g-mainnet` / W0G). -/
def demoRelayerReq : PaymentRequest :=
  { x402Version := 1, paymentHeader := HeaderInput.obj demoFlatHeader,
    paymentRequirements :=
      { scheme := "exact", network := "0g-mainnet", asset := "W0G",
        payTo := "0xMERCHANT", maxAmountRequired := "1000000" } }

/-- A request whose payment header fails to decode. -/
def demoBadReq : PaymentRequest :=
  { x402Version := 1, paymentHeader := HeaderInput.malformed ("Unexpected token in JSON"),
    paymentRequirements := demoRequirements }

/-- A chain environment in which every write and receipt wait succeeds. -/
def okChainEnv : ChainEnv :=
  { writeResult := fun _ => Except.ok ("0xHASH"),
    receiptResult := fun _ => Except.ok { blockNumber := 100, success := true } }

/-- A chain environment in which every chain interaction throws. -/
def errChainEnv : ChainEnv :=
  { writeResult := fun _ => Except.error ("boom"),
    receiptResult := fun _ => Except.error ("boom") }

/-- A verifier environment with a funded payer and an unused nonce. -/
def demoVerifyEnv : VerifyEnv :=
  { decimalsRead := Except.ok 6,
    balanceRead := fun _ => Except.ok 5000000,
    authStateRead := fun _ _ => Except.ok false,
    allowanceRead := fun _ _ => Except.ok 0,
    facilitatorAccount := Except.ok ("0xFACILITATOR") }

/-! ## Theorems -/

/-- C2: for every FeeBreakdown produced from a non-negative integer
base-unit amount, `fee.base + net.base = amount.base` exactly, and
`fee.base = floor(amount.base * feeBps / 10000)` with the process-wide
constant `feeBps = 100` (1%). -/
theorem feeBreakdown_invariant (amount decimals : Nat) (symbol : String) :
    (computeFeeBreakdown amount decimals symbol).fee.base +
        (computeFeeBreakdown amount decimals symbol).net.base =
      (computeFeeBreakdown amount decimals symbol).amount.base ∧
    (computeFeeBreakdown amount decimals symbol).fee.base = amount * feeBps / 10000 ∧
    (computeFeeBreakdown amount decimals symbol).amount.base = amount ∧
    feeBps = 100 := by
  have hle : amount * feeBps / 10000 ≤ amount := by
    have h1 : amount * feeBps ≤ amount * 10000 :=
      Nat.mul_le_mul_left amount (by norm_num [feeBps])
    calc amount * feeBps / 10000 ≤ amount * 10000 / 10000 := Nat.div_le_div_right h1
      _ = amount := by omega
  refine ⟨?_, rfl, rfl, rfl⟩
  simpa [computeFeeBreakdown] using Nat.add_sub_cancel' hle

/-- C3: for every managed-mode `/settle` response assembled after a
settlement attempt, `success` is true iff the settlement status is
`confirmed` or `pending`; for `partial_settlement` or `failed` it is
false. -/
theorem settle_success_iff (settlement : SettleResult) (network : String) (ts : Int) :
    ((assembleSettleResponse settlement network ts).success = true ↔
      (settlement.status = SettleStatus.confirmed ∨
        settlement.status = SettleStatus.pending)) ∧
    (settlement.status = SettleStatus.partialSettlement →
      (assembleSettleResponse settlement network ts).success = false) ∧
    (settlement.status = SettleStatus.failed →
      (assembleSettleResponse settlement network ts).success = false) := by
  obtain ⟨h, hf, st, c⟩ := settlement
  cases st <;> simp [assembleSettleResponse]

/-- C3 witness: a partial settlement yields `success = false`. -/
theorem settle_success_iff_witness :
    (assembleSettleResponse
        { txHash := "0xH", txHashFee := some ("0xF"),
          status := SettleStatus.partialSettlement, confirmations := 5 }
        ("0g-mainnet") 0).success = false :=
  (settle_success_iff _ _ _).2.1 rfl

/-- C5: the payment-header normalizer recognizes shapes in this exact
order: an object with `payload.authorization` is unwrapped to the
canonical record; else an object with truthy `from` and `nonce` is the
flat EIP-3009 shape; else an object with truthy `sender` and `nonce` is
accepted with `sender` renamed to `from`; every other object fails with
the invalid-header error. -/
theorem parse_header_recognition_order (parsed : ParsedHeader) :
    (∀ a, parsed.payloadAuthorization = some a →
      parsePaymentHeader parsed = Except.ok
        { fromAddr := a.fromAddr, toAddr := a.toAddr, value := a.value,
          validAfter := a.validAfter, validBefore := a.validBefore, nonce := a.nonce,
          signature := parsed.signature, v := parsed.v, r := parsed.r, s := parsed.s }) ∧
    (parsed.payloadAuthorization = none →
      (truthyStr parsed.fromAddr && truthyStr parsed.nonce) = true →
      parsePaymentHeader parsed = Except.ok
        { fromAddr := parsed.fromAddr, toAddr := parsed.toAddr, value := parsed.value,
          validAfter := parsed.validAfter, validBefore := parsed.validBefore,
          nonce := parsed.nonce, signature := parsed.signature,
          v := parsed.v, r := parsed.r, s := parsed.s }) ∧
    (parsed.payloadAuthorization = none →
      (truthyStr parsed.fromAddr && truthyStr parsed.nonce) = false →
      (truthyStr parsed.sender && truthyStr parsed.nonce) = true →
      parsePaymentHeader parsed = Except.ok
        { fromAddr := parsed.sender, toAddr := parsed.toAddr, value := parsed.value,
          validAfter := parsed.validAfter, validBefore := parsed.validBefore,
          nonce := parsed.nonce, signature := parsed.signature,
          v := parsed.v, r := parsed.r, s := parsed.s }) ∧
    (parsed.payloadAuthorization = none →
      (truthyStr parsed.fromAddr && truthyStr parsed.nonce) = false →
      (truthyStr parsed.sender && truthyStr parsed.nonce) = false →
      parsePaymentHeader parsed = Except.error ("Invalid payment header format")) := by
  refine ⟨?_, ?_, ?_, ?_⟩
  · intro a ha; simp [parsePaymentHeader, ha]
  · intro h0 h1; simp [parsePaymentHeader, h0, h1]
  · intro h0 h1 h2; simp [parsePaymentHeader, h0, h1, h2]
  · intro h0 h1 h2; simp [parsePaymentHeader, h0, h1, h2]

/-- C5 witness: the four recognition cases at concrete headers. -/
theorem parse_header_recognition_order_witness :
    (∃ out, parsePaymentHeader demoNestedHeader = Except.ok out) ∧
    (∃ out, parsePaymentHeader demoFlatHeader = Except.ok out) ∧
    (∃ out, parsePaymentHeader demoSimpleHeader = Except.ok out ∧
      out.fromAddr = some ("0xS")) ∧
    parsePaymentHeader emptyHeader = Except.error ("Invalid payment header format") :=
  ⟨⟨_, (parse_header_recognition_order _).1 _ rfl⟩,
   ⟨_, (parse_header_recognition_order _).2.1 rfl (by decide)⟩,
   ⟨_, (parse_header_recognition_order _).2.2.1 rfl (by decide) (by decide), rfl⟩,
   (parse_header_recognition_order _).2.2.2 rfl (by decide) (by decide)⟩

/-- C4: the verifier never throws: an unsupported network and every
exception thrown inside its body are converted to a returned record, the
exception's message becoming `invalidReason` with `isValid := false`;
a successfully computed record is returned as-is. In particular a
malformed payment header surfaces as its decode error message. -/
theorem verify_never_throws (req : PaymentRequest) (now : Int) (env : VerifyEnv) :
    (∀ c m, chainConfirmations req.paymentRequirements.network = some c →
      verifyBody req now env = Except.error m →
      verifyPaymentManaged req now env =
        { isValid := false, invalidReason := some m, decimals := none }) ∧
    (∀ c r, chainConfirmations req.paymentRequirements.network = some c →
      verifyBody req now env = Except.ok r →
      verifyPaymentManaged req now env = r) ∧
    (chainConfirmations req.paymentRequirements.network = none →
      verifyPaymentManaged req now env =
        { isValid := false,
          invalidReason := some ("Unsupported network: " ++ req.paymentRequirements.network),
          decimals := none }) ∧
    (∀ c m, req.paymentHeader = HeaderInput.malformed m →
      chainConfirmations req.paymentRequirements.network = some c →
      verifyPaymentManaged req now env =
        { isValid := false, invalidReason := some m, decimals := none }) := by
  refine ⟨?_, ?_, ?_, ?_⟩
  · intro c m hc hb; simp [verifyPaymentManaged, hc, hb]
  · intro c r hc hb; simp [verifyPaymentManaged, hc, hb]
  · intro hc; simp [verifyPaymentManaged, hc]
  · intro c m hm hc
    have hb : verifyBody req now env = Except.error m := by
      simp [verifyBody, hm, parsePaymentHeaderInput, Bind.bind, Except.bind]
    simp [verifyPaymentManaged, hc, hb]

/-- C4 witness: a request with an undecodable header is answered with a
record carrying the decode error, not an exception. -/
theorem verify_never_throws_witness :
    verifyPaymentManaged demoBadReq 0 demoVerifyEnv =
      { isValid := false, invalidReason := some ("Unexpected token in JSON"),
        decimals := none } :=
  (verify_never_throws demoBadReq 0 demoVerifyEnv).2.2.2 2 ("Unexpected token in JSON") rfl rfl

/-- C8: for a non-terminal record in a confirmer sweep, confirmations are
`currentBlock - receipt.blockNumber`; at or above the chain's required
confirmations the record is finalized to `confirmed` (receipt success) or
`failed`, with the confirmations count and a `confirmed_at` timestamp;
below it only the new confirmations count is persisted and the status is
left untouched. -/
theorem confirmer_update_rule (receipt : Receipt) (currentBlock : Int)
    (required : Nat) (nowIso : String) :
    (((required : Int) ≤ currentBlock - receipt.blockNumber) →
      processPendingTransaction receipt currentBlock required nowIso =
        TxUpdate.finalize
          (if receipt.success then SettleStatus.confirmed else SettleStatus.failed)
          (currentBlock - receipt.blockNumber) nowIso) ∧
    ((currentBlock - receipt.blockNumber < (required : Int)) →
      processPendingTransaction receipt currentBlock required nowIso =
        TxUpdate.confirmationsOnly (currentBlock - receipt.blockNumber)) := by
  constructor
  · intro h
    simp [processPendingTransaction, confirmerUpdate, checkTransactionFinality, h]
  · intro h
    simp [processPendingTransaction, confirmerUpdate, checkTransactionFinality,
      not_le.mpr h]

/-- C8 witness: at block 102 a success receipt from block 100 with 2
required confirmations finalizes to `confirmed`; at block 101 only the
count 1 is persisted. -/
theorem confirmer_update_rule_witness :
    processPendingTransaction { blockNumber := 100, success := true } 102 2 ("t0") =
      TxUpdate.finalize SettleStatus.confirmed 2 ("t0") ∧
    processPendingTransaction { blockNumber := 100, success := true } 101 2 ("t0") =
      TxUpdate.confirmationsOnly 1 :=
  ⟨(confirmer_update_rule { blockNumber := 100, success := true } 102 2 ("t0")).1
      (by decide),
   (confirmer_update_rule { blockNumber := 100, success := true } 101 2 ("t0")).2
      (by decide)⟩

/-- C9: two requests with the same idempotency fingerprint within the
cache TTL: the second is answered from the cache with a body byte-identical
to the first (including the stable timestamp baked into it when the first
response was produced and stored), downstream processing is suppressed,
and the cache is unchanged. -/
theorem idempotent_retry_byte_identical
    (cache0 : List (String × CacheEntry)) (fp : String) (t1 t2 ttl : Int)
    (process1 process2 : Int → String)
    (hmiss : cacheLookup cache0 fp t1 ttl = none)
    (hwithin : t2 - t1 ≤ ttl) :
    (handleWithIdempotency (handleWithIdempotency cache0 fp t1 ttl process1).cache
        fp t2 ttl process2).body =
      (handleWithIdempotency cache0 fp t1 ttl process1).body ∧
    (handleWithIdempotency (handleWithIdempotency cache0 fp t1 ttl process1).cache
        fp t2 ttl process2).processedDownstream = false ∧
    (handleWithIdempotency (handleWithIdempotency cache0 fp t1 ttl process1).cache
        fp t2 ttl process2).cache =
      (handleWithIdempotency cache0 fp t1 ttl process1).cache := by
  have h1 : handleWithIdempotency cache0 fp t1 ttl process1 =
      { body := process1 t1, processedDownstream := true,
        cache := (fp, { body := process1 t1, createdAt := t1 }) :: cache0 } := by
    simp [handleWithIdempotency, hmiss]
  rw [h1]
  simp [handleWithIdempotency, cacheLookup, List.find?, hwithin]

/-- C9 witness: a retry two ticks later inside a 60-tick TTL returns the
first body and suppresses processing. -/
theorem idempotent_retry_byte_identical_witness :
    (handleWithIdempotency
        (handleWithIdempotency [] ("k") 10 60 (fun t => toString t)).cache
        ("k") 12 60 (fun t => toString (t + 1))).body =
      (handleWithIdempotency [] ("k") 10 60 (fun t => toString t)).body ∧
    (handleWithIdempotency
        (handleWithIdempotency [] ("k") 10 60 (fun t => toString t)).cache
        ("k") 12 60 (fun t => toString (t + 1))).processedDownstream = false ∧
    (handleWithIdempotency
        (handleWithIdempotency [] ("k") 10 60 (fun t => toString t)).cache
        ("k") 12 60 (fun t => toString (t + 1))).cache =
      (handleWithIdempotency [] ("k") 10 60 (fun t => toString t)).cache :=
  idempotent_retry_byte_identical [] ("k") 10 12 60 _ _ rfl (by decide)

/-- C7: in the relayer strategy, when both `transferFrom` receipts are
obtained, the status is `confirmed` iff both receipts are successful;
with at least one non-success receipt it is `partialSettlement`; in both
cases the result carries the merchant and the fee transaction hashes. -/
theorem relayer_outcome_classification
    (req : PaymentRequest) (feeAmount netAmount : Int) (confs : Nat)
    (treasuryAddress : String) (env : ChainEnv) (auth : PaymentAuth)
    (token hashMerchant hashFee : String) (receiptMerchant receiptFee : Receipt)
    (hp : parsePaymentHeaderInput req.paymentHeader = Except.ok auth)
    (ht : tokenAddress req.paymentRequirements.network = some token)
    (hw1 : env.writeResult (ChainCall.transferFrom token (asAddr auth.fromAddr)
        req.paymentRequirements.payTo netAmount) = Except.ok hashMerchant)
    (hw2 : env.writeResult (ChainCall.transferFrom token (asAddr auth.fromAddr)
        treasuryAddress feeAmount) = Except.ok hashFee)
    (hr1 : env.receiptResult hashMerchant = Except.ok receiptMerchant)
    (hr2 : env.receiptResult hashFee = Except.ok receiptFee) :
    (settleWithRelayer req feeAmount netAmount confs treasuryAddress env).1 =
      Except.ok
        { txHash := hashMerchant, txHashFee := some hashFee,
          status := if receiptMerchant.success && receiptFee.success then
              SettleStatus.confirmed
            else SettleStatus.partialSettlement,
          confirmations := confs } ∧
    ((if receiptMerchant.success && receiptFee.success then SettleStatus.confirmed
        else SettleStatus.partialSettlement) = SettleStatus.confirmed ↔
      (receiptMerchant.success = true ∧ receiptFee.success = true)) ∧
    ((receiptMerchant.success = false ∨ receiptFee.success = false) →
      (if receiptMerchant.success && receiptFee.success then SettleStatus.confirmed
        else SettleStatus.partialSettlement) = SettleStatus.partialSettlement) := by
  refine ⟨?_, ?_, ?_⟩
  · by_cases h1 : receiptMerchant.success <;> by_cases h2 : receiptFee.success <;>
      simp [settleWithRelayer, hp, ht, hw1, hw2, hr1, hr2, h1, h2]
  · by_cases h1 : receiptMerchant.success <;> by_cases h2 : receiptFee.success <;>
      simp [h1, h2]
  · intro h
    rcases h with h | h <;> simp [h]

/-- C7 witness: with both writes and both receipts succeeding, the
classification applies at a concrete relayer request. -/
theorem relayer_outcome_classification_witness :
    (settleWithRelayer demoRelayerReq 10000 990000 5 ("0xTREASURY") okChainEnv).1 =
      Except.ok
        { txHash := "0xHASH", txHashFee := some ("0xHASH"),
          status := if (true : Bool) && (true : Bool) then SettleStatus.confirmed
            else SettleStatus.partialSettlement,
          confirmations := 5 } :=
  (relayer_outcome_classification demoRelayerReq 10000 990000 5 ("0xTREASURY")
      okChainEnv
      { fromAddr := some ("0xPAYER"), toAddr := some ("0xMERCHANT"),
        value := some ("1000000"), validAfter := none, validBefore := none,
        nonce := some ("0xNONCE"), signature := none,
        v := some 27, r := some ("0xr"), s := some ("0xs") }
      ("0x1Cd0690fF9a693f5EF2dD976660a8dAFc81A109c") ("0xHASH") ("0xHASH")
      { blockNumber := 100, success := true } { blockNumber := 100, success := true }
      rfl rfl rfl rfl rfl rfl).1

/-- C10: the relayer strategy submits the two `transferFrom` transactions
sequentially, and any failure after the merchant transfer was broadcast
(fee submission, or either receipt wait) is rethrown as a
`Relayer settlement failed` error whose payload is only the message
string: the caller receives an `Except.error` and no `SettleResult`, so
no transaction hash reaches it even though the merchant transfer was
already submitted. When the first submission fails, the trace shows the
fee transfer was never submitted. -/
theorem relayer_failure_drops_hashes
    (req : PaymentRequest) (feeAmount netAmount : Int) (confs : Nat)
    (treasuryAddress : String) (env : ChainEnv) (auth : PaymentAuth) (token : String)
    (hp : parsePaymentHeaderInput req.paymentHeader = Except.ok auth)
    (ht : tokenAddress req.paymentRequirements.network = some token) :
    (∀ m, env.writeResult (ChainCall.transferFrom token (asAddr auth.fromAddr)
        req.paymentRequirements.payTo netAmount) = Except.error m →
      settleWithRelayer req feeAmount netAmount confs treasuryAddress env =
        (Except.error ("Relayer settlement failed: " ++ m),
         [ChainCall.transferFrom token (asAddr auth.fromAddr)
            req.paymentRequirements.payTo netAmount])) ∧
    (∀ hashMerchant m,
      env.writeResult (ChainCall.transferFrom token (asAddr auth.fromAddr)
        req.paymentRequirements.payTo netAmount) = Except.ok hashMerchant →
      env.writeResult (ChainCall.transferFrom token (asAddr auth.fromAddr)
        treasuryAddress feeAmount) = Except.error m →
      settleWithRelayer req feeAmount netAmount confs treasuryAddress env =
        (Except.error ("Relayer settlement failed: " ++ m),
         [ChainCall.transferFrom token (asAddr auth.fromAddr)
            req.paymentRequirements.payTo netAmount,
          ChainCall.transferFrom token (asAddr auth.fromAddr)
            treasuryAddress feeAmount])) ∧
    (∀ hashMerchant hashFee m,
      env.writeResult (ChainCall.transferFrom token (asAddr auth.fromAddr)
        req.paymentRequirements.payTo netAmount) = Except.ok hashMerchant →
      env.writeResult (ChainCall.transferFrom token (asAddr auth.fromAddr)
        treasuryAddress feeAmount) = Except.ok hashFee →
      env.receiptResult hashMerchant = Except.error m →
      (settleWithRelayer req feeAmount netAmount confs treasuryAddress env).1 =
        Except.error ("Relayer settlement failed: " ++ m)) ∧
    (∀ hashMerchant hashFee m receiptMerchant,
      env.writeResult (ChainCall.transferFrom token (asAddr auth.fromAddr)
        req.paymentRequirements.payTo netAmount) = Except.ok hashMerchant →
      env.writeResult (ChainCall.transferFrom token (asAddr auth.fromAddr)
        treasuryAddress feeAmount) = Except.ok hashFee →
      env.receiptResult hashMerchant = Except.ok receiptMerchant →
      env.receiptResult hashFee = Except.error m →
      (settleWithRelayer req feeAmount netAmount confs treasuryAddress env).1 =
        Except.error ("Relayer settlement failed: " ++ m)) := by
  refine ⟨?_, ?_, ?_, ?_⟩
  · intro m hw1
    simp [settleWithRelayer, hp, ht, hw1, relayerFail]
  · intro hashMerchant m hw1 hw2
    simp [settleWithRelayer, hp, ht, hw1, hw2, relayerFail]
  · intro hashMerchant hashFee m hw1 hw2 hr1
    simp [settleWithRelayer, hp, ht, hw1, hw2, hr1, relayerFail]
  · intro hashMerchant hashFee m receiptMerchant hw1 hw2 hr1 hr2
    simp [settleWithRelayer, hp, ht, hw1, hw2, hr1, hr2, relayerFail]

/-- C10 witness: with the merchant submission throwing, the caller gets
only the wrapped error and the fee transfer was never submitted. -/
theorem relayer_failure_drops_hashes_witness :
    settleWithRelayer demoRelayerReq 10000 990000 5 ("0xTREASURY") errChainEnv =
      (Except.error ("Relayer settlement failed: boom"),
       [ChainCall.transferFrom ("0x1Cd0690fF9a693f5EF2dD976660a8dAFc81A109c")
          ("0xPAYER") ("0xMERCHANT") 990000]) :=
  (relayer_failure_drops_hashes demoRelayerReq 10000 990000 5 ("0xTREASURY")
      errChainEnv
      { fromAddr := some ("0xPAYER"), toAddr := some ("0xMERCHANT"),
        value := some ("1000000"), validAfter := none, validBefore := none,
        nonce := some ("0xNONCE"), signature := none,
        v := some 27, r := some ("0xr"), s := some ("0xs") }
      ("0x1Cd0690fF9a693f5EF2dD976660a8dAFc81A109c") rfl rfl).1 ("boom") rfl

/-- Successful signed-amount extraction comes from the authorization's
`value` field through `BigInt`. -/
theorem eipSignedAmount_ok {auth : PaymentAuth} {n : Int}
    (h : eipSignedAmount auth = Except.ok n) :
    ∃ vs, auth.value = some vs ∧ jsBigInt vs = Except.ok n := by
  unfold eipSignedAmount at h
  cases hv : auth.value with
  | none => rw [hv] at h; simp at h
  | some vs => rw [hv] at h; exact ⟨vs, rfl, h⟩

/-- C1: in the EIP-3009 strategy the outcome and the submitted chain
calls do not depend on the precomputed `feeAmount`/`netAmount` arguments
at all; every `transferWithAuthorization` submitted carries exactly
`BigInt` of the normalized authorization's `value` field; and every
returned result leaves `txHashFee` undefined. -/
theorem eip3009_uses_exact_signed_amount
    (req : PaymentRequest) (now : Int)
    (feeAmount netAmount feeAmount' netAmount' : Int)
    (confs : Nat) (env : ChainEnv) :
    settleWithEIP3009 req now feeAmount netAmount confs env =
      settleWithEIP3009 req now feeAmount' netAmount' confs env ∧
    (∀ out trace token args,
      settleWithEIP3009 req now feeAmount netAmount confs env = (out, trace) →
      ChainCall.transferWithAuthorization token args ∈ trace →
      ∃ auth vs, parsePaymentHeaderInput req.paymentHeader = Except.ok auth ∧
        auth.value = some vs ∧ jsBigInt vs = Except.ok args.value) ∧
    (∀ res trace,
      settleWithEIP3009 req now feeAmount netAmount confs env = (Except.ok res, trace) →
      res.txHashFee = none) := by
  refine ⟨rfl, ?_, ?_⟩
  · intro out trace token args heq hmem
    cases hp : parsePaymentHeaderInput req.paymentHeader with
    | error m =>
      simp only [settleWithEIP3009, hp] at heq
      injection heq with h1 h2; subst h2; simp at hmem
    | ok auth =>
      simp only [settleWithEIP3009, hp] at heq
      cases ht : tokenAddress req.paymentRequirements.network with
      | none =>
        simp only [ht] at heq
        injection heq with h1 h2; subst h2; simp at hmem
      | some token0 =>
        simp only [ht] at heq
        cases hv : extractVRS auth with
        | error m =>
          simp only [hv] at heq
          injection heq with h1 h2; subst h2; simp at hmem
        | ok sigParts =>
          simp only [hv] at heq
          cases ha : eipValidAfter auth with
          | error m =>
            simp only [ha] at heq
            injection heq with h1 h2; subst h2; simp at hmem
          | ok validAfter =>
            simp only [ha] at heq
            cases hb : eipValidBefore auth now with
            | error m =>
              simp only [hb] at heq
              injection heq with h1 h2; subst h2; simp at hmem
            | ok validBefore =>
              simp only [hb] at heq
              cases hn : eipNonce auth with
              | error m =>
                simp only [hn] at heq
                injection heq with h1 h2; subst h2; simp at hmem
              | ok nonceBytes32 =>
                simp only [hn] at heq
                cases hs : eipSignedAmount auth with
                | error m =>
                  simp only [hs] at heq
                  injection heq with h1 h2; subst h2; simp at hmem
                | ok signedAmount =>
                  simp only [hs] at heq
                  obtain ⟨vs, hvs, hbig⟩ := eipSignedAmount_ok hs
                  split at heq
                  · injection heq with h1 h2; subst h2
                    simp only [List.mem_singleton] at hmem
                    have harg : args.value = signedAmount := by
                      rw [show args =
                          ({ fromAddr := asAddr auth.fromAddr,
                             toAddr := req.paymentRequirements.payTo,
                             value := signedAmount,
                             validAfter := validAfter, validBefore := validBefore,
                             nonce := nonceBytes32,
                             v := sigParts.v, r := sigParts.r, s := sigParts.s } : TwaArgs)
                        from (ChainCall.transferWithAuthorization.injEq ..).mp hmem |>.2]
                    exact ⟨auth, vs, rfl, hvs, harg ▸ hbig⟩
                  · split at heq <;>
                    · injection heq with h1 h2; subst h2
                      simp only [List.mem_cons, List.mem_singleton] at hmem
                      rcases hmem with hmem | hmem
                      · have harg : args.value = signedAmount := by
                          rw [show args =
                              ({ fromAddr := asAddr auth.fromAddr,
                                 toAddr := req.paymentRequirements.payTo,
                                 value := signedAmount,
                                 validAfter := validAfter, validBefore := validBefore,
                                 nonce := nonceBytes32,
                                 v := sigParts.v, r := sigParts.r,
                                 s := sigParts.s } : TwaArgs)
                            from (ChainCall.transferWithAuthorization.injEq ..).mp hmem |>.2]
                        exact ⟨auth, vs, rfl, hvs, harg ▸ hbig⟩
                      · simp at hmem
  · intro res trace heq
    cases hp : parsePaymentHeaderInput req.paymentHeader with
    | error m =>
      simp only [settleWithEIP3009, hp] at heq
      injection heq with h1 h2; simp [eipFail] at h1
    | ok auth =>
      simp only [settleWithEIP3009, hp] at heq
      cases ht : tokenAddress req.paymentRequirements.network with
      | none =>
        simp only [ht] at heq
        injection heq with h1 h2; simp [eipFail] at h1
      | some token0 =>
        simp only [ht] at heq
        cases hv : extractVRS auth with
        | error m =>
          simp only [hv] at heq
          injection heq with h1 h2; simp [eipFail] at h1
        | ok sigParts =>
          simp only [hv] at heq
          cases ha : eipValidAfter auth with
          | error m =>
            simp only [ha] at heq
            injection heq with h1 h2; simp [eipFail] at h1
          | ok validAfter =>
            simp only [ha] at heq
            cases hb : eipValidBefore auth now with
            | error m =>
              simp only [hb] at heq
              injection heq with h1 h2; simp [eipFail] at h1
            | ok validBefore =>
              simp only [hb] at heq
              cases hn : eipNonce auth with
              | error m =>
                simp only [hn] at heq
                injection heq with h1 h2; simp [eipFail] at h1
              | ok nonceBytes32 =>
                simp only [hn] at heq
                cases hs : eipSignedAmount auth with
                | error m =>
                  simp only [hs] at heq
                  injection heq with h1 h2; simp [eipFail] at h1
                | ok signedAmount =>
                  simp only [hs] at heq
                  split at heq
                  · injection heq with h1 h2; simp [eipFail] at h1
                  · split at heq
                    · injection heq with h1 h2; simp [eipFail] at h1
                    · injection heq with h1 h2
                      injection h1 with h1
                      rw [← h1]

/-- Concatenating two strings concatenates their character data. -/
theorem strAppendData (s t : String) : (s ++ t).data = s.data ++ t.data := by
  cases s; cases t; rfl

/-- Stripping `0x` from a list that starts with it. -/
theorem strip0xChars_cons (l : List Char) : strip0xChars ('0' :: 'x' :: l) = l := by
  simp [strip0xChars]

/-- A list whose second character is not `x` is left unchanged. -/
theorem strip0xChars_of_ne (a b : Char) (l : List Char) (hb : b ≠ 'x') :
    strip0xChars (a :: b :: l) = a :: b :: l := by
  simp [strip0xChars, hb]

/-- Stripping `0x` after prepending it recovers the original data. -/
theorem strip0x_mk (l : List Char) : strip0xStr ("0x" ++ String.mk l) = String.mk l := by
  have hd : ("0x" ++ String.mk l).data = '0' :: 'x' :: l := by
    rw [strAppendData]; rfl
  simp [strip0xStr, hd, strip0xChars_cons]

/-- The slices taken by `splitSignature` over a 64+64+tail concatenation. -/
theorem slice_concat (rb sb tl : List Char) (hrb : rb.length = 64)
    (hsb : sb.length = 64) :
    jsSliceChars (rb ++ (sb ++ tl)) 0 64 = rb ∧
    jsSliceChars (rb ++ (sb ++ tl)) 64 128 = sb ∧
    jsSliceChars (rb ++ (sb ++ tl)) 128 130 = tl.take 2 := by
  refine ⟨?_, ?_, ?_⟩
  · show ((rb ++ (sb ++ tl)).drop 0).take (64 - 0) = rb
    rw [List.drop_zero]
    exact List.take_left' hrb
  · show ((rb ++ (sb ++ tl)).drop 64).take (128 - 64) = sb
    rw [List.drop_left' hrb]
    exact List.take_left' hsb
  · show ((rb ++ (sb ++ tl)).drop 128).take (130 - 128) = tl.take 2
    rw [← List.append_assoc]
    have hlen : (rb ++ sb).length = 128 := by simp [hrb, hsb]
    rw [List.drop_left' hlen]

/-- Hex digits render and parse back to themselves. -/
theorem hexDigitVal_hexChar : ∀ d : Nat, d < 16 → hexDigitVal (hexChar d) = some d := by
  decide

/-- The data behind a two-digit hex byte. -/
theorem byteToHex_data (v : Nat) :
    (byteToHex v).data = [hexChar (v / 16), hexChar (v % 16)] := rfl

/-- A byte below 256 survives the render-then-`parseInt(_, 16)` round trip. -/
theorem jsParseIntHex_byte (v : Nat) (hv : v < 256) :
    jsParseIntHex (byteToHex v).data = some v := by
  have h1 : v / 16 < 16 := Nat.div_lt_of_lt_mul (by omega)
  have h2 : v % 16 < 16 := Nat.mod_lt _ (by norm_num)
  have e1 := hexDigitVal_hexChar _ h1
  have e2 := hexDigitVal_hexChar _ h2
  have i1 : isHexChar (hexChar (v / 16)) = true := by simp [isHexChar, e1]
  have i2 : isHexChar (hexChar (v % 16)) = true := by simp [isHexChar, e2]
  simp [jsParseIntHex, byteToHex_data, List.takeWhile_cons, i1, i2, e1, e2]
  omega

/-- Decomposition of a combined signature whose stripped data is a
64-character `r`, a 64-character `s` and a byte. -/
theorem splitCombined_ok (v : Nat) (rb sb : List Char) (sg : String)
    (hv : v < 256) (hrb : rb.length = 64) (hsb : sb.length = 64)
    (hne : sg ≠ "")
    (hsg : strip0xChars sg.data = rb ++ (sb ++ (byteToHex v).data)) :
    splitCombined (some sg) = Except.ok
      { v := some v, r := "0x" ++ String.mk rb, s := "0x" ++ String.mk sb } := by
  obtain ⟨hA, hB, hC⟩ := slice_concat rb sb (byteToHex v).data hrb hsb
  simp only [splitCombined, if_neg hne, hsg, hA, hB, hC]
  rw [show ((byteToHex v).data).take 2 = (byteToHex v).data by simp [byteToHex_data]]
  rw [jsParseIntHex_byte v hv]

/-- C6: signature decomposition is a left inverse of combination: for
well-formed components (a byte `v` and 64-hex-character `r` and `s`,
`0x`-prefixed), splitting the combined hex string yields the components
back, whether or not the combined string carries the `0x` prefix; and
components already present and non-zero are returned unchanged. -/
theorem split_combine_roundtrip
    (v : Nat) (rb sb : List Char) (hv : v < 256)
    (hrb : rb.length = 64) (hsb : sb.length = 64)
    (hrhex : ∀ c ∈ rb, isHexChar c = true) :
    splitSignature (SigInput.str
        (combineSignature v ("0x" ++ String.mk rb) ("0x" ++ String.mk sb))) =
      Except.ok { v := some v, r := "0x" ++ String.mk rb,
                  s := "0x" ++ String.mk sb } ∧
    splitSignature (SigInput.str (String.mk rb ++ String.mk sb ++ byteToHex v)) =
      Except.ok { v := some v, r := "0x" ++ String.mk rb,
                  s := "0x" ++ String.mk sb } ∧
    (∀ (v0 : Nat) (r0 s0 : String) (sigField : Option String),
      v0 ≠ 0 → r0 ≠ "" → s0 ≠ "" →
      splitSignature (SigInput.obj (some v0) (some r0) (some s0) sigField) =
        Except.ok { v := some v0, r := r0, s := s0 }) := by
  refine ⟨?_, ?_, ?_⟩
  · have hcomb : combineSignature v ("0x" ++ String.mk rb) ("0x" ++ String.mk sb) =
        "0x" ++ String.mk rb ++ String.mk sb ++ byteToHex v := by
      simp [combineSignature, strip0x_mk]
    have hdata : ("0x" ++ String.mk rb ++ String.mk sb ++ byteToHex v).data =
        '0' :: 'x' :: (rb ++ (sb ++ (byteToHex v).data)) := by
      simp only [strAppendData]
      show (['0', 'x'] ++ rb) ++ (String.mk sb).data ++ (byteToHex v).data =
        '0' :: 'x' :: (rb ++ (sb ++ (byteToHex v).data))
      simp [List.append_assoc]
    have hne : ("0x" ++ String.mk rb ++ String.mk sb ++ byteToHex v) ≠ "" := by
      intro h
      have := congrArg String.data h
      rw [hdata] at this
      simp at this
    rw [hcomb]
    show splitCombined (some ("0x" ++ String.mk rb ++ String.mk sb ++ byteToHex v)) = _
    exact splitCombined_ok v rb sb _ hv hrb hsb hne
      (by rw [hdata, strip0xChars_cons])
  · rcases rb with _ | ⟨a, rb1⟩
    · simp at hrb
    rcases rb1 with _ | ⟨b, rest⟩
    · simp at hrb
    have hbhex := hrhex b (by simp)
    have hbx : b ≠ 'x' := by
      intro h
      rw [h] at hbhex
      exact absurd hbhex (by decide)
    have hdata : (String.mk (a :: b :: rest) ++ String.mk sb ++ byteToHex v).data =
        a :: b :: (rest ++ (sb ++ (byteToHex v).data)) := by
      simp only [strAppendData]
      simp [List.append_assoc]
    have hne : (String.mk (a :: b :: rest) ++ String.mk sb ++ byteToHex v) ≠ "" := by
      intro h
      have := congrArg String.data h
      rw [hdata] at this
      simp at this
    show splitCombined
        (some (String.mk (a :: b :: rest) ++ String.mk sb ++ byteToHex v)) = _
    exact splitCombined_ok v (a :: b :: rest) sb _ hv hrb hsb hne
      (by rw [hdata, strip0xChars_of_ne a b _ hbx]; simp)
  · intro v0 r0 s0 sigField hv0 hr0 hs0
    simp [splitSignature, truthyNum, truthyStr, hv0, hr0, hs0]

/-- C6 witness: a concrete 65-byte signature round-trips through
combination and decomposition. -/
theorem split_combine_roundtrip_witness :
    splitSignature (SigInput.str (combineSignature 27
        ("0x" ++ String.mk (List.replicate 64 'a'))
        ("0x" ++ String.mk (List.replicate 64 'b')))) =
      Except.ok { v := some 27, r := "0x" ++ String.mk (List.replicate 64 'a'),
                  s := "0x" ++ String.mk (List.replicate 64 'b') } :=
  (split_combine_roundtrip 27 (List.replicate 64 'a') (List.replicate 64 'b')
    (by decide) (by decide) (by decide) (by decide)).1

/-- C1 witness: at a concrete request whose authorization signs
`"1000000"`, the strategy's transfer call carries `1000000` and the value
originates in the authorization's `value` field. -/
theorem eip3009_uses_exact_signed_amount_witness :
    ∃ auth vs, parsePaymentHeaderInput demoEipReq.paymentHeader = Except.ok auth ∧
      auth.value = some vs ∧
      jsBigInt vs = Except.ok
        (TwaArgs.value
          { fromAddr := "0xPAYER", toAddr := "0xMERCHANT", value := 1000000,
            validAfter := 0, validBefore := 3600, nonce := "0xNONCE",
            v := some 27, r := "0xr", s := "0xs" }) :=
  (eip3009_uses_exact_signed_amount demoEipReq 0 10000 990000 1 2 2 okChainEnv).2.1
    (settleWithEIP3009 demoEipReq 0 10000 990000 2 okChainEnv).1
    (settleWithEIP3009 demoEipReq 0 10000 990000 2 okChainEnv).2
    ("0x036CbD53842c5426634e7929541eC2318f3dCF7e")
    { fromAddr := "0xPAYER", toAddr := "0xMERCHANT", value := 1000000,
      validAfter := 0, validBefore := 3600, nonce := "0xNONCE",
      v := some 27, r := "0xr", s := "0xs" }
    rfl (by decide)

end ChaosX402
